import Mathlib

/-!
# CrossQuest: a shallow embedding of `src/main.js`

The gameplay rules of the game scene are embedded as pure functions on an explicit
`Scene` record.  JavaScript numbers are modelled by exact rationals (`ℚ`), counters that
the program only initialises to `0` and increments by natural numbers (`Nat`), and row
indices obtained with `Math.floor` by integers (`Int`).

The host engine is not part of the repository.  What the rules consume from it is passed
in explicitly:

* `Rng.random n` is the value returned by the `n`-th call of `Math.random()`;
* `Rng.pick n` is the glyph returned by the `n`-th call of `Phaser.Math.RND.pick`;
* an `overlap` oracle answers the physics query "does the player overlap this sprite".

The move animation is kept as the pending target `Scene.tween`; `completeTween` is the
moment at which the engine has put the player on the target and calls `onComplete`.  The
per-frame `update` and the cosmetic `updateHorizontalRain` are not embedded: the rules that
`update` and the engine call are the events of `step`.
-/

namespace CrossQuest

/-! ## Constants (main.js lines 3-5) -/

/-- The constant `GRID_SIZE`. -/
def GRID_SIZE : ℚ := 40

/-- The constant `SCREEN_WIDTH`. -/
def SCREEN_WIDTH : ℚ := 800

/-- The constant `SCREEN_HEIGHT`. -/
def SCREEN_HEIGHT : ℚ := 600

/-! ## Data model -/

/-- The three row classifications, the keys of `rowColors`. -/
inductive RowType where
  | safe
  | road
  | water
  deriving DecidableEq, Repr

/-- The values taken by `this.gameState`. -/
inductive GameState where
  | start
  | playing
  | gameOver
  deriving DecidableEq, Repr

/-- The player sprite: only its position is used by the rules. -/
structure Player where
  x : ℚ
  y : ℚ
  deriving DecidableEq, Repr

/-- A bug or a log: position, horizontal body velocity and display size. -/
structure Obstacle where
  x : ℚ
  y : ℚ
  velocityX : ℚ
  displayWidth : ℚ
  displayHeight : ℚ
  deriving DecidableEq, Repr

/-- A full-width row tile. -/
structure Tile where
  y : ℚ
  rowType : RowType
  deriving DecidableEq, Repr

/-- A decorative rain strip with its two data entries `speed` and `updateCounter`. -/
structure RainRow where
  x : ℚ
  y : ℚ
  text : List Char
  speed : ℚ
  updateCounter : ℚ
  deriving DecidableEq, Repr

/-- The two random sources of the host: `Math.random` and `Phaser.Math.RND.pick`,
each given as the sequence of the values it returns. -/
structure Rng where
  random : Nat → ℚ
  pick : Nat → Char

/-- The result of the four `JustDown(..) || JustDown(..)` tests of one tick. -/
structure Keys where
  up : Bool
  down : Bool
  left : Bool
  right : Bool
  deriving DecidableEq, Repr

/-- The mutable state of the game scene together with the module-level `highScore`.
`tween` is the target of the move animation in flight, `shakes` counts the calls of
`cameras.main.shake`, `randomCalls` and `pickCalls` count the draws made so far. -/
structure Scene where
  gameState : GameState
  score : Nat
  furthestRow : Int
  lastGeneratedRow : Nat
  levelLayout : List RowType
  isPlayerDead : Bool
  highScore : Nat
  player : Player
  startX : ℚ
  startY : ℚ
  bugs : List Obstacle
  logs : List Obstacle
  tiles : List Tile
  rainRows : List RainRow
  scoreText : String
  titleTextVisible : Bool
  playButtonVisible : Bool
  gameOverText : String
  gameOverTextVisible : Bool
  rewindButtonVisible : Bool
  shakes : Nat
  tween : Option (ℚ × ℚ)
  randomCalls : Nat
  pickCalls : Nat
  deriving DecidableEq, Repr

/-- The scene object before `init` has run for the first time: `highScore` is the
module-level initial value `0`, nothing has been created yet. -/
def Scene.blank : Scene :=
  { gameState := GameState.start, score := 0, furthestRow := 0, lastGeneratedRow := 0,
    levelLayout := [], isPlayerDead := false, highScore := 0, player := ⟨0, 0⟩,
    startX := 0, startY := 0, bugs := [], logs := [], tiles := [], rainRows := [],
    scoreText := "", titleTextVisible := false, playButtonVisible := false,
    gameOverText := "", gameOverTextVisible := false, rewindButtonVisible := false,
    shakes := 0, tween := none, randomCalls := 0, pickCalls := 0 }

/-! ## Row generator (main.js lines 342-428) -/

/-- The text of `Score: ..\nHigh: ..` shown by `scoreText`. -/
def scoreLabel (score high : Nat) : String :=
  "Score: " ++ toString score ++ "\nHigh: " ++ toString high

/-- The local constant `playerStartRow` of `generateRows`. -/
def playerStartRow : Int := ⌊SCREEN_HEIGHT / GRID_SIZE⌋ - 1

/-- The test `!isNearPlayer && !isInitialSafeZone` for the row about to be generated. -/
def hazardAllowed (row : Nat) : Bool :=
  let isNearPlayer := decide (|(row : Int) - playerStartRow| ≤ 1)
  let isInitialSafeZone := decide (row < 3)
  !isNearPlayer && !isInitialSafeZone

/-- The classification drawn from one value of `Math.random()`. -/
def classify (rand : ℚ) : RowType :=
  if rand < 45 / 100 then RowType.road
  else if rand < 7 / 10 then RowType.water
  else RowType.safe

/-- The three rain strips of a water row at height `y`.  Strip `j` takes 100 glyphs from
`pick` starting at `p + 100 * j` and two values of `random` starting at `c + 2 * j`. -/
def rainStrips (rng : Rng) (c p : Nat) (y direction baseSpeed : ℚ) : List RainRow :=
  (List.range 3).map fun (j : Nat) =>
    let charsToFill : Nat := ⌈SCREEN_WIDTH / 8⌉.toNat
    let text := (List.range charsToFill).map fun (k : Nat) => rng.pick (p + charsToFill * j + k)
    let yOffset := (j : ℚ) * (GRID_SIZE / 3) - GRID_SIZE / 2 + 10
    let textY := y + yOffset
    let speed := baseSpeed + rng.random (c + 2 * j) * 20
    { x := 0, y := textY, text := text, speed := speed * direction,
      updateCounter := rng.random (c + 2 * j + 1) * 100 }

/-- The obstacles of a road or water row; obstacle `j` takes its jitter from
`random (c + j)`. -/
def rowObstacles (rng : Rng) (c : Nat) (y : ℚ) (rowType : RowType)
    (direction speed : ℚ) (objectCount : Int) : List Obstacle :=
  (List.range objectCount.toNat).map fun (j : Nat) =>
    let spacing := SCREEN_WIDTH * (3 / 2) / (objectCount : ℚ)
    let x := (j : ℚ) * spacing + (rng.random (c + j) * GRID_SIZE * 2 - GRID_SIZE)
    let x := if direction = 1 then x - SCREEN_WIDTH * (1 / 4) else x + SCREEN_WIDTH * (5 / 4)
    { x := x, y := y, velocityX := speed * direction,
      displayWidth := if rowType = RowType.road then GRID_SIZE * (9 / 10) else GRID_SIZE * 3,
      displayHeight := GRID_SIZE * (9 / 10) }

/-- One iteration of the loop of `generateRows`: classify row `lastGeneratedRow`, push the
classification, create the tile, the rain strips of a water row and the obstacles of a
road or water row, then increment `lastGeneratedRow`. -/
def generateRow (rng : Rng) (s : Scene) : Scene :=
  let y := (s.lastGeneratedRow : ℚ) * GRID_SIZE + GRID_SIZE / 2
  let c0 := s.randomCalls
  let hazard := hazardAllowed s.lastGeneratedRow
  let rowType := if hazard then classify (rng.random c0) else RowType.safe
  let c1 := if hazard then c0 + 1 else c0
  let isWater := decide (rowType = RowType.water)
  let rainDirection : ℚ := if rng.random c1 < 1 / 2 then 1 else -1
  let baseSpeed := (rng.random (c1 + 1) * (1 / 2) + 1 / 2) * 40
  let rain := if isWater then rainStrips rng (c1 + 2) s.pickCalls y rainDirection baseSpeed else []
  let c2 := if isWater then c1 + 8 else c1
  let p2 := if isWater then s.pickCalls + 3 * ⌈SCREEN_WIDTH / 8⌉.toNat else s.pickCalls
  let hasObstacles := decide (rowType = RowType.road) || decide (rowType = RowType.water)
  let direction : ℚ := if rng.random c2 < 1 / 2 then 1 else -1
  let speed := (rng.random (c2 + 1) * 1 + 1 / 2) * 70
  let objectCount : Int := ⌊rng.random (c2 + 2) * 2⌋ + 2
  let obstacles :=
    if hasObstacles then rowObstacles rng (c2 + 3) y rowType direction speed objectCount else []
  let c3 := if hasObstacles then c2 + 3 + objectCount.toNat else c2
  { s with
    levelLayout := s.levelLayout ++ [rowType]
    tiles := s.tiles ++ [{ y := y, rowType := rowType }]
    rainRows := s.rainRows ++ rain
    bugs := if rowType = RowType.road then s.bugs ++ obstacles else s.bugs
    logs := if rowType = RowType.water then s.logs ++ obstacles else s.logs
    lastGeneratedRow := s.lastGeneratedRow + 1
    randomCalls := c3
    pickCalls := p2 }

/-- The function `generateRows(numRows)`: `numRows` iterations of the loop body. -/
def generateRows (rng : Rng) : Nat → Scene → Scene
  | 0, s => s
  | n + 1, s => generateRows rng n (generateRow rng s)

/-! ## Scene life cycle (main.js lines 19-32, 108-271, 304-324) -/

/-- The count `Math.floor(SCREEN_HEIGHT / GRID_SIZE) + 1` passed to `generateRows` by
`create` and by `resetLevel`. -/
def screenRows : Nat := (⌊SCREEN_HEIGHT / GRID_SIZE⌋ + 1).toNat

/-- The local constant `startingRow` of `create` and of `resetLevel`. -/
def startingRow : Int := ⌊SCREEN_HEIGHT / GRID_SIZE⌋ - 1

/-- The method `init(data)`: `data` is the value of `data.highScore` when present; it
replaces the module-level `highScore` only when it is truthy (non-zero). -/
def init (data : Option Nat) (s : Scene) : Scene :=
  { s with
    gameState := GameState.start
    score := 0
    furthestRow := 0
    lastGeneratedRow := 0
    levelLayout := []
    isPlayerDead := false
    highScore := match data with
      | some h => if h ≠ 0 then h else s.highScore
      | none => s.highScore }

/-- The method `create()`: fresh groups, the initial rows, the player on its start cell,
the score text and the title and game-over widgets. -/
def create (rng : Rng) (s : Scene) : Scene :=
  let s1 := generateRows rng screenRows
    { s with bugs := [], logs := [], tiles := [], rainRows := [], tween := none }
  let startX := SCREEN_WIDTH / 2
  let startY := (startingRow : ℚ) * GRID_SIZE + GRID_SIZE / 2
  { s1 with
    startX := startX
    startY := startY
    furthestRow := startingRow
    player := { x := startX, y := startY }
    scoreText := scoreLabel 0 s1.highScore
    titleTextVisible := true
    playButtonVisible := true
    gameOverText := ""
    gameOverTextVisible := false
    rewindButtonVisible := false }

/-- The `pointerdown` handler of the play button. -/
def playButtonDown (s : Scene) : Scene :=
  { s with
    titleTextVisible := false
    playButtonVisible := false
    gameState := GameState.playing
    player := { x := SCREEN_WIDTH / 2, y := s.startY }
    isPlayerDead := false }

/-- The `pointerdown` handler of the rewind button, `scene.restart({ highScore })`: the
scene runs `init` with the current high score and then `create`. -/
def rewindButtonDown (rng : Rng) (s : Scene) : Scene :=
  create rng (init (some s.highScore) s)

/-- The method `resetLevel()`. -/
def resetLevel (rng : Rng) (s : Scene) : Scene :=
  let s1 := generateRows rng screenRows
    { s with
      tiles := [], bugs := [], logs := [], rainRows := []
      levelLayout := []
      lastGeneratedRow := 0 }
  { s1 with
    player := { x := SCREEN_WIDTH / 2, y := (startingRow : ℚ) * GRID_SIZE + GRID_SIZE / 2 }
    furthestRow := startingRow }

/-! ## Death, landing, movement and wrap (main.js lines 455-585) -/

/-- The function `playerHit()`. -/
def playerHit (s : Scene) : Scene :=
  if s.isPlayerDead then s
  else if s.gameState ≠ GameState.playing then { s with isPlayerDead := true }
  else
    { s with
      isPlayerDead := true
      gameState := GameState.gameOver
      shakes := s.shakes + 1
      gameOverText := "Congratulations!\nScore: " ++ toString s.score
      gameOverTextVisible := true
      rewindButtonVisible := true }

/-- The function `checkLanding()`; `overlap` answers the physics overlap query between
the player and one log. -/
def checkLanding (overlap : Player → Obstacle → Bool) (s : Scene) : Scene :=
  let currentRowIndex : Int := ⌊s.player.y / GRID_SIZE⌋
  if currentRowIndex < 0 ∨ currentRowIndex ≥ s.levelLayout.length then s
  else
    let currentTileType := s.levelLayout[currentRowIndex.toNat]?
    if currentTileType = some RowType.water then
      let isSafeOnLog := s.logs.any (overlap s.player)
      if !isSafeOnLog then playerHit s else s
    else s

/-- The `onComplete` callback of the move tween. -/
def onComplete (overlap : Player → Obstacle → Bool) (s : Scene) : Scene :=
  let currentRow : Int := ⌊s.player.y / GRID_SIZE⌋
  let s1 :=
    if currentRow < s.furthestRow then
      let score := if s.score < 9999 then s.score + 1 else s.score
      let high := if score > s.highScore then score else s.highScore
      { s with
        score := score
        furthestRow := currentRow
        highScore := high
        scoreText := scoreLabel score high }
    else s
  checkLanding overlap s1

/-- The engine function `Phaser.Math.Clamp(value, min, max)`, which is
`Math.max(min, Math.min(max, value))`. -/
def Clamp (value min max : ℚ) : ℚ := Max.max min (Min.min max value)

/-- The function `handlePlayerMovement()`: either the level is reset, or a tween to the
computed target is started, or nothing happens. -/
def handlePlayerMovement (rng : Rng) (k : Keys) (s : Scene) : Scene :=
  let currentRow : Int := ⌊s.player.y / GRID_SIZE⌋
  let bottomRow : Int := ⌊SCREEN_HEIGHT / GRID_SIZE⌋ - 1
  let target : ℚ × ℚ × Bool × Bool :=
    if k.up then (s.player.x, s.player.y - GRID_SIZE, true, true)
    else if k.down && decide (currentRow < bottomRow) then
      (s.player.x, s.player.y + GRID_SIZE, true, false)
    else if k.left then (s.player.x - GRID_SIZE, s.player.y, true, false)
    else if k.right then (s.player.x + GRID_SIZE, s.player.y, true, false)
    else (s.player.x, s.player.y, false, false)
  let targetX := target.1
  let targetY := target.2.1
  let moved := target.2.2.1
  let movedUp := target.2.2.2
  if moved then
    if movedUp && decide (⌊s.player.y / GRID_SIZE⌋ = 0) then resetLevel rng s
    else
      { s with tween := some (Clamp targetX (GRID_SIZE / 2) (SCREEN_WIDTH - GRID_SIZE / 2),
                             targetY) }
  else s

/-- The end of the move tween as the engine performs it: the player is at the target,
the tween is gone and `onComplete` runs. -/
def completeTween (overlap : Player → Obstacle → Bool) (s : Scene) : Scene :=
  match s.tween with
  | none => s
  | some (targetX, targetY) =>
    onComplete overlap { s with player := { x := targetX, y := targetY }, tween := none }

/-- The callback that `wrapGameObject` applies to each member of the group. -/
def wrapOne (go : Obstacle) : Obstacle :=
  if go.velocityX > 0 ∧ go.x > SCREEN_WIDTH + go.displayWidth / 2 then
    { go with x := -go.displayWidth / 2 }
  else if go.velocityX < 0 ∧ go.x < -go.displayWidth / 2 then
    { go with x := SCREEN_WIDTH + go.displayWidth / 2 }
  else go

/-- The function `wrapGameObject(group)`. -/
def wrapGameObject (group : List Obstacle) : List Obstacle := group.map wrapOne

/-! ## Runs of the game -/

/-- What can happen to the scene between two frames.  `keys` is a tick with key edges
whose move, if any, runs to completion; `carry` is the log-carry update of `player.x`. -/
inductive Event where
  | keys (k : Keys) (overlap : Player → Obstacle → Bool)
  | resetLevel
  | carry (dx : ℚ)
  | hit
  | play
  | rewind

/-- The effect of one event. -/
def step (rng : Rng) (s : Scene) : Event → Scene
  | Event.keys k overlap => completeTween overlap (handlePlayerMovement rng k s)
  | Event.resetLevel => resetLevel rng s
  | Event.carry dx => { s with player := { s.player with x := s.player.x + dx } }
  | Event.hit => playerHit s
  | Event.play => playButtonDown s
  | Event.rewind => rewindButtonDown rng s

/-- The scene after a sequence of events. -/
def run (rng : Rng) (s : Scene) (events : List Event) : Scene :=
  events.foldl (step rng) s

/-- The scene when the game starts: `init({})` then `create()` on the blank scene. -/
def initialScene (rng : Rng) : Scene := create rng (init none Scene.blank)

/-- A sequence of completed moves: each move ends with the player at some position, with
some answer of the overlap query, and the `onComplete` callback runs there. -/
def completeMoves (s : Scene) (moves : List (Player × (Player → Obstacle → Bool))) : Scene :=
  moves.foldl (fun t m => onComplete m.2 { t with player := m.1 }) s

/-- A random source for examples: `Math.random()` always returns `0` (every row that may
be hazardous is a road) and every glyph is `0`. -/
def demoRng : Rng := { random := fun _ => 0, pick := fun _ => '0' }

/-- The scene of the spec example after its first move has been animated: high score 7
carried over, score 0, the player arrived on row 13. -/
def exampleScene : Scene :=
  { initialScene demoRng with highScore := 7, player := { x := 400, y := 540 } }

/-- The classification that one loop iteration of `generateRows` pushes. -/
def nextRowType (rng : Rng) (s : Scene) : RowType :=
  if hazardAllowed s.lastGeneratedRow then classify (rng.random s.randomCalls) else RowType.safe

/-- The grid invariant of the scene: the player stands on the centre line of one of the
rows 0 to 14, the layout has 16 rows, the start height is 580 and no move is in flight. -/
def GridInvariant (s : Scene) : Prop :=
  (0 ≤ ⌊s.player.y / 40⌋ ∧ ⌊s.player.y / 40⌋ ≤ 14 ∧
    s.player.y = 40 * (⌊s.player.y / 40⌋ : ℚ) + 20) ∧
  s.levelLayout.length = 16 ∧ s.startY = 580 ∧ s.tween = none

instance (s : Scene) : Decidable (GridInvariant s) := by
  unfold GridInvariant
  infer_instance

/-- A random source whose `Math.random()` always returns `0.9`: every generated row is
`safe` and no obstacle exists. -/
def safeRng : Rng := { random := fun _ => 9 / 10, pick := fun _ => '0' }

/-- The key state of a tick in which only up fires. -/
def upKey : Keys := { up := true, down := false, left := false, right := false }

/-- The overlap query that always answers no. -/
def noOverlap : Player → Obstacle → Bool := fun _ _ => false

/-- The scene reached from the initial scene by pressing Play and then moving up fourteen
times, from row 14 to row 0. -/
def topScene : Scene :=
  run safeRng (initialScene safeRng)
    (Event.play :: List.replicate 14 (Event.keys upKey noOverlap))

/-- A live game on an all-safe level: the player on row `r`, which is also the furthest row,
with score and high score both `c`. -/
def Climbing (s : Scene) (r : Int) (c : Nat) : Prop :=
  s.player.y = 40 * (r : ℚ) + 20 ∧ s.furthestRow = r ∧ s.score = c ∧ s.highScore = c ∧
  s.isPlayerDead = false ∧ s.gameState = GameState.playing ∧
  ∀ t ∈ s.levelLayout, t = RowType.safe

/-- A running game whose only row is a water row without logs, the player standing on it. -/
def waterScene : Scene :=
  { Scene.blank with
    gameState := GameState.playing, levelLayout := [RowType.water], lastGeneratedRow := 1,
    player := { x := 400, y := 20 } }

/-- A log moving right that has left the screen on the right. -/
def driftedLog : Obstacle :=
  { x := 900, y := 140, velocityX := 50, displayWidth := 120, displayHeight := 36 }

/-! ## Basic facts about the constants -/

theorem floor_screen_grid : ⌊SCREEN_HEIGHT / GRID_SIZE⌋ = 15 := by
  unfold SCREEN_HEIGHT GRID_SIZE
  rw [Int.floor_eq_iff]
  norm_num

theorem playerStartRow_eq : playerStartRow = 14 := by
  unfold playerStartRow
  rw [floor_screen_grid]
  rfl

theorem startingRow_eq : startingRow = 14 := by
  unfold startingRow
  rw [floor_screen_grid]
  rfl

theorem screenRows_eq : screenRows = 16 := by
  unfold screenRows
  rw [floor_screen_grid]
  rfl

theorem hazardAllowed_eq_false (row : Nat) (h : |(row : Int) - 14| ≤ 1 ∨ row < 3) :
    hazardAllowed row = false := by
  unfold hazardAllowed
  rw [playerStartRow_eq]
  rcases h with h | h <;> simp [h]

/-! ## The row generator -/

theorem generateRow_levelLayout (rng : Rng) (s : Scene) :
    (generateRow rng s).levelLayout = s.levelLayout ++ [nextRowType rng s] := rfl

theorem generateRow_lastGeneratedRow (rng : Rng) (s : Scene) :
    (generateRow rng s).lastGeneratedRow = s.lastGeneratedRow + 1 := rfl

theorem generateRows_levelLayout (rng : Rng) (n : Nat) (s : Scene) :
    ∃ l : List RowType, l.length = n ∧
      (generateRows rng n s).levelLayout = s.levelLayout ++ l ∧
      (generateRows rng n s).lastGeneratedRow = s.lastGeneratedRow + n ∧
      ∀ j : Nat, j < n → hazardAllowed (s.lastGeneratedRow + j) = false →
        l[j]? = some RowType.safe := by
  induction n generalizing s with
  | zero => exact ⟨[], rfl, by simp [generateRows], rfl, fun j hj => absurd hj (Nat.not_lt_zero j)⟩
  | succ n ih =>
    obtain ⟨l, hlen, hlay, hlast, hsafe⟩ := ih (generateRow rng s)
    refine ⟨nextRowType rng s :: l, by simp [hlen], ?_, ?_, ?_⟩
    · show (generateRows rng n (generateRow rng s)).levelLayout = _
      rw [hlay, generateRow_levelLayout]
      simp
    · show (generateRows rng n (generateRow rng s)).lastGeneratedRow = _
      rw [hlast, generateRow_lastGeneratedRow]
      omega
    · intro j hj hz
      cases j with
      | zero =>
        have hz0 : hazardAllowed s.lastGeneratedRow = false := by simpa using hz
        simp [nextRowType, hz0]
      | succ j =>
        have := hsafe j (by omega)
          (by rw [generateRow_lastGeneratedRow]; rw [← hz]; congr 1; omega)
        simpa using this

theorem generateRows_safe_at (rng : Rng) (n : Nat) (s : Scene)
    (h : s.lastGeneratedRow = s.levelLayout.length) (i : Nat)
    (hlo : s.levelLayout.length ≤ i) (hhi : i < s.levelLayout.length + n)
    (hi : |(i : Int) - 14| ≤ 1 ∨ i < 3) :
    (generateRows rng n s).levelLayout[i]? = some RowType.safe := by
  obtain ⟨l, _, hlay, _, hsafe⟩ := generateRows_levelLayout rng n s
  obtain ⟨j, rfl⟩ := Nat.exists_eq_add_of_le hlo
  rw [hlay, List.getElem?_append_right (Nat.le_add_right _ _), Nat.add_sub_cancel_left]
  exact hsafe j (by omega) (by rw [h]; exact hazardAllowed_eq_false _ hi)

theorem fresh_layout_safe (rng : Rng) (s : Scene) (h0 : s.lastGeneratedRow = 0)
    (h1 : s.levelLayout = []) :
    (generateRows rng screenRows s).levelLayout.length = 16 ∧
      ∀ i ∈ [0, 1, 2, 13, 14, 15],
        (generateRows rng screenRows s).levelLayout[i]? = some RowType.safe := by
  rw [screenRows_eq]
  constructor
  · obtain ⟨l, hlen, hlay, _, _⟩ := generateRows_levelLayout rng 16 s
    rw [hlay, h1]
    simpa using hlen
  · intro i hi
    have hs : s.lastGeneratedRow = s.levelLayout.length := by rw [h0, h1]; rfl
    have hlen : s.levelLayout.length = 0 := by rw [h1]; rfl
    simp only [List.mem_cons, List.mem_singleton, List.not_mem_nil, or_false] at hi
    rcases hi with rfl | rfl | rfl | rfl | rfl | rfl <;>
      exact generateRows_safe_at rng 16 s hs _ (by omega) (by omega) (by norm_num)

theorem create_levelLayout (rng : Rng) (s : Scene) :
    (create rng s).levelLayout =
      (generateRows rng screenRows
        { s with bugs := [], logs := [], tiles := [], rainRows := [], tween := none }).levelLayout :=
  rfl

theorem resetLevel_levelLayout (rng : Rng) (s : Scene) :
    (resetLevel rng s).levelLayout =
      (generateRows rng screenRows
        { s with tiles := [], bugs := [], logs := [], rainRows := [], levelLayout := [],
                 lastGeneratedRow := 0 }).levelLayout :=
  rfl

/-- C1: when `lastGeneratedRow` equals the layout length, `generateRows rng n` keeps the old
rows, appends exactly `n` rows, and every appended row whose index `i` satisfies
`|i - 14| ≤ 1` (14 is `playerStartRow`) or `i < 3` is `safe`, whatever the random draws;
the layouts built by `create` (after `init`) and by `resetLevel` have 16 rows of which
rows 0, 1, 2, 13, 14 and 15 are `safe`. -/
theorem generateRows_start_area_safe (rng : Rng) (n : Nat) (s : Scene)
    (h : s.lastGeneratedRow = s.levelLayout.length) :
    playerStartRow = 14 ∧
    (generateRows rng n s).levelLayout.length = s.levelLayout.length + n ∧
    (generateRows rng n s).levelLayout.take s.levelLayout.length = s.levelLayout ∧
    (∀ i : Nat, s.levelLayout.length ≤ i → i < s.levelLayout.length + n →
      (|(i : Int) - 14| ≤ 1 ∨ i < 3) →
      (generateRows rng n s).levelLayout[i]? = some RowType.safe) ∧
    (∀ (data : Option Nat) (s0 : Scene),
      (create rng (init data s0)).levelLayout.length = 16 ∧
      ∀ i ∈ [0, 1, 2, 13, 14, 15],
        (create rng (init data s0)).levelLayout[i]? = some RowType.safe) ∧
    (∀ s0 : Scene,
      (resetLevel rng s0).levelLayout.length = 16 ∧
      ∀ i ∈ [0, 1, 2, 13, 14, 15],
        (resetLevel rng s0).levelLayout[i]? = some RowType.safe) := by
  refine ⟨playerStartRow_eq, ?_, ?_, ?_, ?_, ?_⟩
  · obtain ⟨l, hlen, hlay, _, _⟩ := generateRows_levelLayout rng n s
    rw [hlay, List.length_append, hlen]
  · obtain ⟨l, hlen, hlay, _, _⟩ := generateRows_levelLayout rng n s
    rw [hlay, List.take_left]
  · intro i hlo hhi hi
    exact generateRows_safe_at rng n s h i hlo hhi hi
  · intro data s0
    rw [create_levelLayout]
    exact fresh_layout_safe rng _ rfl rfl
  · intro s0
    rw [resetLevel_levelLayout]
    exact fresh_layout_safe rng _ rfl rfl

/-- Witness of C1: sixteen rows generated on the blank scene, all draws `0`. -/
theorem generateRows_start_area_safe_witness :
    (generateRows demoRng 16 Scene.blank).levelLayout[14]? = some RowType.safe :=
  (generateRows_start_area_safe demoRng 16 Scene.blank rfl).2.2.2.1 14
    (Nat.zero_le _) (by decide) (by norm_num)

/-- The fields that `generateRows` does not touch. -/
theorem generateRows_frame (rng : Rng) (n : Nat) (s : Scene) :
    (generateRows rng n s).score = s.score ∧
    (generateRows rng n s).highScore = s.highScore ∧
    (generateRows rng n s).furthestRow = s.furthestRow ∧
    (generateRows rng n s).isPlayerDead = s.isPlayerDead ∧
    (generateRows rng n s).gameState = s.gameState ∧
    (generateRows rng n s).player = s.player ∧
    (generateRows rng n s).tween = s.tween ∧
    (generateRows rng n s).startY = s.startY := by
  induction n generalizing s with
  | zero => exact ⟨rfl, rfl, rfl, rfl, rfl, rfl, rfl, rfl⟩
  | succ n ih => exact ih (generateRow rng s)

theorem create_score (rng : Rng) (s : Scene) : (create rng s).score = s.score :=
  (generateRows_frame rng screenRows _).1

theorem create_highScore (rng : Rng) (s : Scene) : (create rng s).highScore = s.highScore :=
  (generateRows_frame rng screenRows _).2.1

theorem resetLevel_score (rng : Rng) (s : Scene) : (resetLevel rng s).score = s.score :=
  (generateRows_frame rng screenRows _).1

theorem resetLevel_highScore (rng : Rng) (s : Scene) :
    (resetLevel rng s).highScore = s.highScore :=
  (generateRows_frame rng screenRows _).2.1

theorem initialScene_score (rng : Rng) : (initialScene rng).score = 0 :=
  create_score rng _

theorem initialScene_highScore (rng : Rng) : (initialScene rng).highScore = 0 :=
  create_highScore rng _

/-! ## Death handling -/

theorem playerHit_of_dead (s : Scene) (h : s.isPlayerDead = true) : playerHit s = s := by
  simp [playerHit, h]

theorem playerHit_isPlayerDead (s : Scene) : (playerHit s).isPlayerDead = true := by
  unfold playerHit
  split
  · assumption
  · split <;> rfl

theorem playerHit_iterate (s : Scene) (k : Nat) : playerHit^[k + 1] s = playerHit s := by
  induction k with
  | zero => rfl
  | succ k ih =>
    rw [Function.iterate_succ_apply', ih]
    exact playerHit_of_dead _ (playerHit_isPlayerDead s)

/-- C6: death handling is idempotent.  After `playerHit` the dead flag is set; on a scene
whose dead flag is already set `playerHit` changes nothing at all (so `gameState`,
`score`, the game-over text, the button visibility and the number of camera shakes are
unchanged); hence `k ≥ 1` consecutive death signals give the same scene as a single one, the
only call that can change the scene is one made while the flag is still unset, and from a
live scene the flag is unset before the first signal and set after every number `j ≥ 1` of
signals: it is set once, by the first signal. -/
theorem playerHit_idempotent (s : Scene) :
    (playerHit s).isPlayerDead = true ∧
    (s.isPlayerDead = true → playerHit s = s) ∧
    playerHit (playerHit s) = playerHit s ∧
    (∀ k : Nat, 1 ≤ k → playerHit^[k] s = playerHit s) ∧
    (playerHit s ≠ s → s.isPlayerDead = false) ∧
    (s.isPlayerDead = false → ∀ j : Nat, (playerHit^[j] s).isPlayerDead = true ↔ 1 ≤ j) := by
  refine ⟨playerHit_isPlayerDead s, playerHit_of_dead s,
    playerHit_of_dead _ (playerHit_isPlayerDead s), ?_, ?_, ?_⟩
  · intro k hk
    obtain ⟨j, rfl⟩ := Nat.exists_eq_add_of_le hk
    rw [Nat.add_comm]
    exact playerHit_iterate s j
  · intro hne
    cases hd : s.isPlayerDead with
    | false => rfl
    | true => exact absurd (playerHit_of_dead s hd) hne
  · intro hd j
    cases j with
    | zero => simp [hd]
    | succ j =>
      rw [playerHit_iterate]
      simp [playerHit_isPlayerDead]

/-! ## Landing -/

/-- C5: let `r = floor(player.y / 40)`.  If `r` is inside the layout, row `r` is `water` and
the player overlaps no log, `checkLanding` is `playerHit` and the player is dead afterwards.
If row `r` is `water` and some log overlaps the player, or row `r` is `safe` or `road`, or
`r` is outside `[0, levelLayout.length)`, `checkLanding` returns the scene unchanged. -/
theorem checkLanding_spec (overlap : Player → Obstacle → Bool) (s : Scene) :
    (0 ≤ ⌊s.player.y / 40⌋ → ⌊s.player.y / 40⌋ < s.levelLayout.length →
      s.levelLayout[⌊s.player.y / 40⌋.toNat]? = some RowType.water →
      (∀ log ∈ s.logs, overlap s.player log = false) →
      checkLanding overlap s = playerHit s ∧
      (checkLanding overlap s).isPlayerDead = true) ∧
    (s.levelLayout[⌊s.player.y / 40⌋.toNat]? = some RowType.water →
      (∃ log ∈ s.logs, overlap s.player log = true) →
      checkLanding overlap s = s) ∧
    (s.levelLayout[⌊s.player.y / 40⌋.toNat]? = some RowType.safe →
      checkLanding overlap s = s) ∧
    (s.levelLayout[⌊s.player.y / 40⌋.toNat]? = some RowType.road →
      checkLanding overlap s = s) ∧
    (⌊s.player.y / 40⌋ < 0 ∨ (s.levelLayout.length : Int) ≤ ⌊s.player.y / 40⌋ →
      checkLanding overlap s = s) := by
  refine ⟨?_, ?_, ?_, ?_, ?_⟩
  · intro h0 h1 hw hno
    have hany : s.logs.any (overlap s.player) = false := by
      rw [List.any_eq_false]
      intro log hlog
      simp [hno log hlog]
    have hc : checkLanding overlap s = playerHit s := by
      simp only [checkLanding, GRID_SIZE]
      rw [if_neg (by omega), if_pos hw]
      simp [hany]
    exact ⟨hc, hc ▸ playerHit_isPlayerDead s⟩
  · intro hw hex
    have hany : s.logs.any (overlap s.player) = true := by
      rw [List.any_eq_true]
      exact hex
    simp [checkLanding, GRID_SIZE, hw, hany]
  · intro hs
    simp [checkLanding, GRID_SIZE, hs]
  · intro hs
    simp [checkLanding, GRID_SIZE, hs]
  · intro hout
    simp only [checkLanding, GRID_SIZE]
    rw [if_pos (by omega)]

/-! ## Obstacle wrap -/

/-- C7: `wrapGameObject` applies `wrapOne` to every member of the group.  For an obstacle
at `x` with display width `w` and velocity `v`: if `v > 0` and `x > 800 + w/2` the new `x` is
`-w/2`; if `v < 0` and `x < -w/2` the new `x` is `800 + w/2`; otherwise the obstacle is
unchanged; the velocity (and `y` and the display size) never change.  The two re-entry
positions are mirror images about `x = 400`: their midpoint is `400`. -/
theorem wrapGameObject_spec (group : List Obstacle) (go : Obstacle) :
    wrapGameObject group = group.map wrapOne ∧
    (wrapGameObject group).length = group.length ∧
    (go.velocityX > 0 → go.x > 800 + go.displayWidth / 2 →
      (wrapOne go).x = -(go.displayWidth / 2)) ∧
    (go.velocityX < 0 → go.x < -(go.displayWidth / 2) →
      (wrapOne go).x = 800 + go.displayWidth / 2) ∧
    (¬(go.velocityX > 0 ∧ go.x > 800 + go.displayWidth / 2) →
      ¬(go.velocityX < 0 ∧ go.x < -(go.displayWidth / 2)) → wrapOne go = go) ∧
    (wrapOne go).velocityX = go.velocityX ∧
    (wrapOne go).y = go.y ∧
    (wrapOne go).displayWidth = go.displayWidth ∧
    (wrapOne go).displayHeight = go.displayHeight ∧
    400 - -(go.displayWidth / 2) = (800 + go.displayWidth / 2) - 400 := by
  refine ⟨rfl, by simp [wrapGameObject], ?_, ?_, ?_, ?_, ?_, ?_, ?_, by ring⟩
  · intro hv hx
    simp only [wrapOne, SCREEN_WIDTH]
    rw [if_pos ⟨hv, hx⟩]
    show -go.displayWidth / 2 = _
    ring
  · intro hv hx
    have hx2 : go.x < -go.displayWidth / 2 := by rw [neg_div]; exact hx
    simp only [wrapOne, SCREEN_WIDTH]
    rw [if_neg (fun h => absurd hv (not_lt.mpr (le_of_lt h.1))), if_pos ⟨hv, hx2⟩]
  · intro h1 h2
    have h2b : ¬(go.velocityX < 0 ∧ go.x < -go.displayWidth / 2) := by rw [neg_div]; exact h2
    simp only [wrapOne, SCREEN_WIDTH]
    rw [if_neg h1, if_neg h2b]
  all_goals
    unfold wrapOne
    split
    · rfl
    · split <;> rfl

/-! ## Scoring on move completion -/

theorem playerHit_score (s : Scene) : (playerHit s).score = s.score := by
  unfold playerHit
  split
  · rfl
  · split <;> rfl

theorem playerHit_furthestRow (s : Scene) : (playerHit s).furthestRow = s.furthestRow := by
  unfold playerHit
  split
  · rfl
  · split <;> rfl

theorem playerHit_highScore (s : Scene) : (playerHit s).highScore = s.highScore := by
  unfold playerHit
  split
  · rfl
  · split <;> rfl

theorem checkLanding_cases (overlap : Player → Obstacle → Bool) (s : Scene) :
    checkLanding overlap s = s ∨ checkLanding overlap s = playerHit s := by
  simp only [checkLanding]
  split
  · exact Or.inl rfl
  · split
    · split
      · exact Or.inr rfl
      · exact Or.inl rfl
    · exact Or.inl rfl

theorem checkLanding_score (overlap : Player → Obstacle → Bool) (s : Scene) :
    (checkLanding overlap s).score = s.score := by
  rcases checkLanding_cases overlap s with h | h <;> rw [h]
  exact playerHit_score s

theorem checkLanding_furthestRow (overlap : Player → Obstacle → Bool) (s : Scene) :
    (checkLanding overlap s).furthestRow = s.furthestRow := by
  rcases checkLanding_cases overlap s with h | h <;> rw [h]
  exact playerHit_furthestRow s

theorem checkLanding_highScore (overlap : Player → Obstacle → Bool) (s : Scene) :
    (checkLanding overlap s).highScore = s.highScore := by
  rcases checkLanding_cases overlap s with h | h <;> rw [h]
  exact playerHit_highScore s

theorem onComplete_score (overlap : Player → Obstacle → Bool) (s : Scene) :
    (onComplete overlap s).score =
      if ⌊s.player.y / 40⌋ < s.furthestRow then
        (if s.score < 9999 then s.score + 1 else s.score)
      else s.score := by
  simp only [onComplete, GRID_SIZE, checkLanding_score]
  split <;> rfl

theorem onComplete_furthestRow (overlap : Player → Obstacle → Bool) (s : Scene) :
    (onComplete overlap s).furthestRow =
      if ⌊s.player.y / 40⌋ < s.furthestRow then ⌊s.player.y / 40⌋ else s.furthestRow := by
  simp only [onComplete, GRID_SIZE, checkLanding_furthestRow]
  split <;> rfl

theorem onComplete_highScore (overlap : Player → Obstacle → Bool) (s : Scene) :
    (onComplete overlap s).highScore =
      if ⌊s.player.y / 40⌋ < s.furthestRow then
        (if (if s.score < 9999 then s.score + 1 else s.score) > s.highScore then
          (if s.score < 9999 then s.score + 1 else s.score) else s.highScore)
      else s.highScore := by
  simp only [onComplete, GRID_SIZE, checkLanding_highScore]
  split <;> rfl

theorem completeMoves_append (s : Scene) (m1 m2 : List (Player × (Player → Obstacle → Bool))) :
    completeMoves s (m1 ++ m2) = completeMoves (completeMoves s m1) m2 := by
  simp [completeMoves, List.foldl_append]

theorem completeMoves_bounds (moves : List (Player × (Player → Obstacle → Bool))) (s : Scene) :
    s.score ≤ (completeMoves s moves).score ∧
    (s.score ≤ 9999 → (completeMoves s moves).score ≤ 9999) ∧
    (completeMoves s moves).furthestRow ≤ s.furthestRow := by
  induction moves generalizing s with
  | nil => exact ⟨le_refl _, fun h => h, le_refl _⟩
  | cons m rest ih =>
    obtain ⟨h1, h2, h3⟩ := ih (onComplete m.2 { s with player := m.1 })
    have hs := onComplete_score m.2 { s with player := m.1 }
    have hf := onComplete_furthestRow m.2 { s with player := m.1 }
    simp only at hs hf
    have e1 : s.score ≤ (onComplete m.2 { s with player := m.1 }).score := by
      rw [hs]; split <;> [split; skip] <;> omega
    have e2 : s.score ≤ 9999 → (onComplete m.2 { s with player := m.1 }).score ≤ 9999 := by
      intro h; rw [hs]; split <;> [split; skip] <;> omega
    have e3 : (onComplete m.2 { s with player := m.1 }).furthestRow ≤ s.furthestRow := by
      rw [hf]; split <;> omega
    exact ⟨le_trans e1 h1, fun h => h2 (e2 h), le_trans h3 e3⟩

/-! ## High score on move completion -/

theorem onComplete_highScore_step (overlap : Player → Obstacle → Bool) (s : Scene)
    (h : s.score ≤ s.highScore) :
    (onComplete overlap s).highScore = max s.highScore (onComplete overlap s).score := by
  rw [onComplete_highScore, onComplete_score]
  split
  · split
    · split
      · rw [max_eq_right (by omega)]
      · rw [max_eq_left (by omega)]
    · rw [if_neg (by omega), max_eq_left h]
  · rw [max_eq_left h]

theorem completeMoves_highScore (moves : List (Player × (Player → Obstacle → Bool)))
    (s : Scene) (h : s.score ≤ s.highScore) :
    s.highScore ≤ (completeMoves s moves).highScore ∧
    (completeMoves s moves).score ≤ (completeMoves s moves).highScore := by
  induction moves generalizing s with
  | nil => exact ⟨le_refl _, h⟩
  | cons m rest ih =>
    have hm := onComplete_highScore_step m.2 { s with player := m.1 } h
    have h1 : s.highScore ≤ (onComplete m.2 { s with player := m.1 }).highScore := by
      rw [hm]; exact le_max_left _ _
    have h2 : (onComplete m.2 { s with player := m.1 }).score ≤
        (onComplete m.2 { s with player := m.1 }).highScore := by
      rw [hm]; exact le_max_right _ _
    obtain ⟨i1, i2⟩ := ih (onComplete m.2 { s with player := m.1 }) h2
    exact ⟨le_trans h1 i1, i2⟩

/-- C8: in a scene with `score ≤ highScore`, after a move completes the new high score is
`max (old highScore) (new score)`: it is the new score exactly when the new score exceeds
the old high score and is otherwise unchanged; so it does not decrease, and
`score ≤ highScore` holds again, also after any sequence of completed moves. -/
theorem onComplete_highScore_max (overlap : Player → Obstacle → Bool) (s : Scene)
    (h : s.score ≤ s.highScore) :
    (onComplete overlap s).highScore = max s.highScore (onComplete overlap s).score ∧
    (s.highScore < (onComplete overlap s).score →
      (onComplete overlap s).highScore = (onComplete overlap s).score) ∧
    ((onComplete overlap s).score ≤ s.highScore →
      (onComplete overlap s).highScore = s.highScore) ∧
    s.highScore ≤ (onComplete overlap s).highScore ∧
    (onComplete overlap s).score ≤ (onComplete overlap s).highScore ∧
    (∀ moves : List (Player × (Player → Obstacle → Bool)),
      s.highScore ≤ (completeMoves s moves).highScore ∧
      (completeMoves s moves).score ≤ (completeMoves s moves).highScore) := by
  have hm := onComplete_highScore_step overlap s h
  refine ⟨hm, ?_, ?_, ?_, ?_, fun moves => completeMoves_highScore moves s h⟩
  · intro hlt
    rw [hm, max_eq_right (le_of_lt hlt)]
  · intro hle
    rw [hm, max_eq_left hle]
  · rw [hm]; exact le_max_left _ _
  · rw [hm]; exact le_max_right _ _

/-- Witness of C8, the spec example: high score 7, the first up move gives score 1 and the
high score is `max 7 1 = 7`. -/
theorem onComplete_highScore_max_witness :
    exampleScene.score = 0 ∧ exampleScene.highScore = 7 ∧
    (onComplete (fun _ _ => false) exampleScene).score = 1 ∧
    (onComplete (fun _ _ => false) exampleScene).highScore = 7 := by
  have hsc : exampleScene.score = 0 := initialScene_score demoRng
  have hhs : exampleScene.highScore = 7 := rfl
  have hfl : ⌊exampleScene.player.y / 40⌋ = 13 := by
    show ⌊(540 : ℚ) / 40⌋ = 13
    rw [Int.floor_eq_iff]; norm_num
  have hfr : exampleScene.furthestRow = 14 := startingRow_eq
  have h1 : (onComplete (fun _ _ => false) exampleScene).score = 1 := by
    rw [onComplete_score, hfl, hfr, hsc]; rfl
  have h := (onComplete_highScore_max (fun _ _ => false) exampleScene
    (by rw [hsc, hhs]; decide)).1
  rw [h1, hhs] at h
  exact ⟨hsc, hhs, h1, h⟩

/-! ## Movement -/

theorem half_grid : GRID_SIZE / 2 = 20 := by
  unfold GRID_SIZE; norm_num

theorem right_bound : SCREEN_WIDTH - GRID_SIZE / 2 = 780 := by
  unfold SCREEN_WIDTH GRID_SIZE; norm_num

theorem right_bound_num : SCREEN_WIDTH - 20 = 780 := by
  unfold SCREEN_WIDTH; norm_num

theorem Clamp_bounds (v : ℚ) : 20 ≤ Clamp v 20 780 ∧ Clamp v 20 780 ≤ 780 := by
  unfold Clamp
  exact ⟨le_max_left _ _, max_le (by norm_num) (min_le_left _ _)⟩

theorem Clamp_cases (v : ℚ) :
    Clamp v 20 780 = if v < 20 then 20 else if 780 < v then 780 else v := by
  unfold Clamp
  split
  · rename_i h
    rw [min_eq_right (by linarith), max_eq_left (le_of_lt h)]
  · rename_i h
    split
    · rename_i h2
      rw [min_eq_left (le_of_lt h2), max_eq_right (by norm_num)]
    · rename_i h2
      rw [min_eq_right (not_lt.mp h2), max_eq_right (not_lt.mp h)]

theorem handlePlayerMovement_top (rng : Rng) (k : Keys) (s : Scene)
    (hrow : ⌊s.player.y / 40⌋ = 0) (hup : k.up = true) :
    handlePlayerMovement rng k s = resetLevel rng s := by
  simp [handlePlayerMovement, hup, GRID_SIZE, hrow]

theorem handlePlayerMovement_up (rng : Rng) (k : Keys) (s : Scene)
    (hrow : ⌊s.player.y / 40⌋ ≠ 0) (hup : k.up = true) :
    handlePlayerMovement rng k s =
      { s with tween := some (Clamp s.player.x 20 780, s.player.y - 40) } := by
  simp only [handlePlayerMovement, hup, half_grid, right_bound]
  simp [GRID_SIZE, right_bound_num, hrow]

theorem handlePlayerMovement_down (rng : Rng) (k : Keys) (s : Scene)
    (hup : k.up = false) (hdown : k.down = true) (hrow : ⌊s.player.y / 40⌋ < 14) :
    handlePlayerMovement rng k s =
      { s with tween := some (Clamp s.player.x 20 780, s.player.y + 40) } := by
  simp only [handlePlayerMovement, hup, hdown, half_grid, right_bound, floor_screen_grid]
  simp [GRID_SIZE, right_bound_num, hrow]

theorem handlePlayerMovement_left (rng : Rng) (k : Keys) (s : Scene)
    (hup : k.up = false) (hdown : ¬(k.down = true ∧ ⌊s.player.y / 40⌋ < 14))
    (hleft : k.left = true) :
    handlePlayerMovement rng k s =
      { s with tween := some (Clamp (s.player.x - 40) 20 780, s.player.y) } := by
  simp only [handlePlayerMovement, hup, half_grid, right_bound, floor_screen_grid]
  simp [GRID_SIZE, right_bound_num, hdown, hleft]

theorem handlePlayerMovement_right (rng : Rng) (k : Keys) (s : Scene)
    (hup : k.up = false) (hdown : ¬(k.down = true ∧ ⌊s.player.y / 40⌋ < 14))
    (hleft : k.left = false) (hright : k.right = true) :
    handlePlayerMovement rng k s =
      { s with tween := some (Clamp (s.player.x + 40) 20 780, s.player.y) } := by
  simp only [handlePlayerMovement, hup, half_grid, right_bound, floor_screen_grid]
  simp [GRID_SIZE, right_bound_num, hdown, hleft, hright]

theorem handlePlayerMovement_none (rng : Rng) (k : Keys) (s : Scene)
    (hup : k.up = false) (hdown : ¬(k.down = true ∧ ⌊s.player.y / 40⌋ < 14))
    (hleft : k.left = false) (hright : k.right = false) :
    handlePlayerMovement rng k s = s := by
  simp only [handlePlayerMovement, hup, half_grid, right_bound, floor_screen_grid]
  simp [GRID_SIZE, right_bound_num, hdown, hleft, hright]

/-- C9 as amended: with no up input and no accepted down input (down pressed while the
row is above the bottom row 14), a left input starts a move whose target is
`(Clamp (x - 40) 20 780, y)`, and a right input with no left input in the same tick one
whose target is `(Clamp (x + 40) 20 780, y)`; nothing else in the scene changes.  `Clamp v 20 780` is `20`
below `20`, `780` above `780` and `v` in between, so the target abscissa is in `[20, 780]`,
half a cell inside the screen `[0, SCREEN_WIDTH]`. -/
theorem horizontal_move_target (rng : Rng) (k : Keys) (s : Scene)
    (hup : k.up = false) (hdown : ¬(k.down = true ∧ ⌊s.player.y / 40⌋ < 14)) :
    (k.left = true →
      handlePlayerMovement rng k s =
        { s with tween := some (Clamp (s.player.x - 40) 20 780, s.player.y) }) ∧
    (k.left = false → k.right = true →
      handlePlayerMovement rng k s =
        { s with tween := some (Clamp (s.player.x + 40) 20 780, s.player.y) }) ∧
    (∀ v : ℚ, Clamp v 20 780 = if v < 20 then 20 else if 780 < v then 780 else v) ∧
    (∀ v : ℚ, GRID_SIZE / 2 ≤ Clamp v 20 780 ∧ Clamp v 20 780 ≤ SCREEN_WIDTH - GRID_SIZE / 2 ∧
      0 ≤ Clamp v 20 780 ∧ Clamp v 20 780 ≤ SCREEN_WIDTH) := by
  refine ⟨handlePlayerMovement_left rng k s hup hdown,
    handlePlayerMovement_right rng k s hup hdown, Clamp_cases, ?_⟩
  intro v
  have h := Clamp_bounds v
  rw [right_bound, half_grid]
  refine ⟨h.1, h.2, by linarith [h.1], ?_⟩
  unfold SCREEN_WIDTH
  linarith [h.2]

/-- Witness of the amended C9: in the initial scene (player at `x = 400` on the bottom row) a tick with
down and right pressed moves right: down is not accepted on row 14. -/
theorem horizontal_move_target_witness :
    handlePlayerMovement demoRng ⟨false, true, false, true⟩ (initialScene demoRng) =
      { initialScene demoRng with
        tween := some (Clamp ((initialScene demoRng).player.x + 40) 20 780,
                       (initialScene demoRng).player.y) } :=
  (horizontal_move_target demoRng ⟨false, true, false, true⟩ (initialScene demoRng) rfl
    (by
      have hy : (initialScene demoRng).player.y = (startingRow : ℚ) * GRID_SIZE + GRID_SIZE / 2 :=
        rfl
      have hfl : ⌊(initialScene demoRng).player.y / 40⌋ = 14 := by
        rw [hy, startingRow_eq, Int.floor_eq_iff]
        unfold GRID_SIZE
        norm_num
      rw [hfl]
      simp)).2.1 rfl rfl

/-! ## Level reset -/

theorem start_height : (startingRow : ℚ) * GRID_SIZE + GRID_SIZE / 2 = 580 := by
  rw [startingRow_eq]
  unfold GRID_SIZE
  norm_num

theorem half_width : SCREEN_WIDTH / 2 = 400 := by
  unfold SCREEN_WIDTH; norm_num

theorem resetLevel_player (rng : Rng) (s : Scene) :
    (resetLevel rng s).player = { x := 400, y := 580 } := by
  show ({ x := SCREEN_WIDTH / 2, y := (startingRow : ℚ) * GRID_SIZE + GRID_SIZE / 2 } : Player) = _
  rw [start_height, half_width]

theorem resetLevel_furthestRow (rng : Rng) (s : Scene) : (resetLevel rng s).furthestRow = 14 :=
  startingRow_eq

theorem resetLevel_tween (rng : Rng) (s : Scene) : (resetLevel rng s).tween = s.tween :=
  (generateRows_frame rng screenRows _).2.2.2.2.2.2.1

theorem resetLevel_startY (rng : Rng) (s : Scene) : (resetLevel rng s).startY = s.startY :=
  (generateRows_frame rng screenRows _).2.2.2.2.2.2.2

theorem resetLevel_lastGeneratedRow (rng : Rng) (s : Scene) :
    (resetLevel rng s).lastGeneratedRow = 16 := by
  obtain ⟨_, _, _, hlast, _⟩ := generateRows_levelLayout rng screenRows
    { s with tiles := [], bugs := [], logs := [], rainRows := [], levelLayout := [],
             lastGeneratedRow := 0 }
  show (generateRows rng screenRows _).lastGeneratedRow = 16
  rw [hlast, screenRows_eq]

theorem resetLevel_length (rng : Rng) (s : Scene) :
    (resetLevel rng s).levelLayout.length = 16 := by
  rw [resetLevel_levelLayout]
  exact (fresh_layout_safe rng _ rfl rfl).1

/-- C4: with the player on row 0, an up input makes `handlePlayerMovement` equal to
`resetLevel` and starts no move (the tween slot is untouched).  Afterwards the layout is the
one `generateRows` builds for 16 rows on an emptied layout with `lastGeneratedRow = 0`, it
has exactly 16 rows, `lastGeneratedRow = 16`, `furthestRow = 14`, the player is at
`(400, 580)` and `highScore` is unchanged. -/
theorem up_on_top_row_resets (rng : Rng) (k : Keys) (s : Scene)
    (hrow : ⌊s.player.y / 40⌋ = 0) (hup : k.up = true) :
    handlePlayerMovement rng k s = resetLevel rng s ∧
    (handlePlayerMovement rng k s).tween = s.tween ∧
    (handlePlayerMovement rng k s).levelLayout =
      (generateRows rng 16
        { s with tiles := [], bugs := [], logs := [], rainRows := [], levelLayout := [],
                 lastGeneratedRow := 0 }).levelLayout ∧
    (handlePlayerMovement rng k s).levelLayout.length = 16 ∧
    (handlePlayerMovement rng k s).lastGeneratedRow = 16 ∧
    (handlePlayerMovement rng k s).furthestRow = 14 ∧
    (handlePlayerMovement rng k s).player = { x := 400, y := 580 } ∧
    (handlePlayerMovement rng k s).highScore = s.highScore := by
  rw [handlePlayerMovement_top rng k s hrow hup]
  refine ⟨rfl, resetLevel_tween rng s, ?_, resetLevel_length rng s,
    resetLevel_lastGeneratedRow rng s, resetLevel_furthestRow rng s, resetLevel_player rng s,
    resetLevel_highScore rng s⟩
  rw [resetLevel_levelLayout, screenRows_eq]

/-- C3 as amended: with the player on row 0, an up input makes `handlePlayerMovement`
perform the level reset; the score keeps its value and the high score keeps its value. -/
theorem up_on_top_row_keeps_score (rng : Rng) (k : Keys) (s : Scene)
    (hrow : ⌊s.player.y / 40⌋ = 0) (hup : k.up = true) :
    handlePlayerMovement rng k s = resetLevel rng s ∧
    (handlePlayerMovement rng k s).score = s.score ∧
    (handlePlayerMovement rng k s).highScore = s.highScore := by
  rw [handlePlayerMovement_top rng k s hrow hup]
  exact ⟨rfl, resetLevel_score rng s, resetLevel_highScore rng s⟩

/-! ## The player stays on the grid -/

theorem floor_grid (k : Int) : ⌊((40 : ℚ) * (k : ℚ) + 20) / 40⌋ = k := by
  rw [Int.floor_eq_iff]
  constructor
  · rw [le_div_iff₀ (by norm_num)]; linarith
  · rw [div_lt_iff₀ (by norm_num)]; linarith

theorem gridInvariant_iff (s : Scene) :
    GridInvariant s ↔
      (∃ k : Int, 0 ≤ k ∧ k ≤ 14 ∧ s.player.y = 40 * (k : ℚ) + 20) ∧
      s.levelLayout.length = 16 ∧ s.startY = 580 ∧ s.tween = none := by
  unfold GridInvariant
  constructor
  · rintro ⟨⟨h0, h1, h2⟩, h3⟩
    exact ⟨⟨_, h0, h1, h2⟩, h3⟩
  · rintro ⟨⟨k, h0, h1, h2⟩, h3⟩
    have hf : ⌊s.player.y / 40⌋ = k := by rw [h2]; exact floor_grid k
    rw [hf]
    exact ⟨⟨h0, h1, h2⟩, h3⟩

theorem playerHit_frame (s : Scene) :
    (playerHit s).player = s.player ∧ (playerHit s).levelLayout = s.levelLayout ∧
    (playerHit s).startY = s.startY ∧ (playerHit s).tween = s.tween := by
  unfold playerHit
  split
  · exact ⟨rfl, rfl, rfl, rfl⟩
  · split <;> exact ⟨rfl, rfl, rfl, rfl⟩

theorem checkLanding_frame (overlap : Player → Obstacle → Bool) (s : Scene) :
    (checkLanding overlap s).player = s.player ∧
    (checkLanding overlap s).levelLayout = s.levelLayout ∧
    (checkLanding overlap s).startY = s.startY ∧ (checkLanding overlap s).tween = s.tween := by
  rcases checkLanding_cases overlap s with h | h <;> rw [h]
  · exact ⟨rfl, rfl, rfl, rfl⟩
  · exact playerHit_frame s

theorem onComplete_frame (overlap : Player → Obstacle → Bool) (s : Scene) :
    (onComplete overlap s).player = s.player ∧
    (onComplete overlap s).levelLayout = s.levelLayout ∧
    (onComplete overlap s).startY = s.startY ∧ (onComplete overlap s).tween = s.tween := by
  simp only [onComplete]
  split
  · exact checkLanding_frame overlap _
  · exact checkLanding_frame overlap _

theorem completeTween_none (overlap : Player → Obstacle → Bool) (s : Scene)
    (h : s.tween = none) : completeTween overlap s = s := by
  simp [completeTween, h]

theorem gridInvariant_move (overlap : Player → Obstacle → Bool) (s : Scene) (tx ty : ℚ)
    (hs : GridInvariant s) (k : Int) (h0 : 0 ≤ k) (h1 : k ≤ 14) (hy : ty = 40 * (k : ℚ) + 20) :
    GridInvariant (completeTween overlap { s with tween := some (tx, ty) }) ∧
    (completeTween overlap { s with tween := some (tx, ty) }).player = { x := tx, y := ty } := by
  have hc : completeTween overlap { s with tween := some (tx, ty) } =
      onComplete overlap { s with player := { x := tx, y := ty }, tween := none } := rfl
  obtain ⟨_, hl, hst, _⟩ := (gridInvariant_iff s).1 hs
  obtain ⟨f1, f2, f3, f4⟩ :=
    onComplete_frame overlap { s with player := { x := tx, y := ty }, tween := none }
  rw [hc]
  refine ⟨(gridInvariant_iff _).2 ⟨⟨k, h0, h1, ?_⟩, ?_, ?_, ?_⟩, f1⟩
  · rw [f1]; exact hy
  · rw [f2]; exact hl
  · rw [f3]; exact hst
  · rw [f4]

theorem gridInvariant_resetLevel (rng : Rng) (s : Scene) (hs : GridInvariant s) :
    GridInvariant (resetLevel rng s) := by
  obtain ⟨_, _, hst, htw⟩ := (gridInvariant_iff s).1 hs
  refine (gridInvariant_iff _).2 ⟨⟨14, by norm_num, le_refl _, ?_⟩, resetLevel_length rng s, ?_, ?_⟩
  · rw [resetLevel_player]; norm_num
  · rw [resetLevel_startY]; exact hst
  · rw [resetLevel_tween]; exact htw

theorem gridInvariant_create (rng : Rng) (data : Option Nat) (s : Scene) :
    GridInvariant (create rng (init data s)) := by
  refine (gridInvariant_iff _).2 ⟨⟨14, by norm_num, le_refl _, ?_⟩, ?_, ?_, ?_⟩
  · show (startingRow : ℚ) * GRID_SIZE + GRID_SIZE / 2 = _
    rw [start_height]; norm_num
  · rw [create_levelLayout]
    exact (fresh_layout_safe rng _ rfl rfl).1
  · exact start_height
  · exact (generateRows_frame rng screenRows _).2.2.2.2.2.2.1

/-- The move made by a tick with key edges, as a case distinction on the keys. -/
theorem step_keys_cases (rng : Rng) (k : Keys) (overlap : Player → Obstacle → Bool) (s : Scene)
    (hs : GridInvariant s) :
    GridInvariant (step rng s (Event.keys k overlap)) ∧
    (k.up = true → ⌊s.player.y / 40⌋ = 0 →
      (step rng s (Event.keys k overlap)).player.y = 580) ∧
    (k.up = false → ⌊s.player.y / 40⌋ = 14 →
      (step rng s (Event.keys k overlap)).player.y = s.player.y) := by
  obtain ⟨⟨r, hr0, hr1, hy⟩, hl, hst, htw⟩ := (gridInvariant_iff s).1 hs
  have hf : ⌊s.player.y / 40⌋ = r := by rw [hy]; exact floor_grid r
  show GridInvariant (completeTween overlap (handlePlayerMovement rng k s)) ∧
    (_ → _ → (completeTween overlap (handlePlayerMovement rng k s)).player.y = 580) ∧
    (_ → _ → (completeTween overlap (handlePlayerMovement rng k s)).player.y = s.player.y)
  by_cases hup : k.up = true
  · by_cases hrow : ⌊s.player.y / 40⌋ = 0
    · rw [handlePlayerMovement_top rng k s hrow hup,
        completeTween_none overlap _ (by rw [resetLevel_tween]; exact htw)]
      refine ⟨gridInvariant_resetLevel rng s hs, fun _ _ => ?_, fun h => ?_⟩
      · rw [resetLevel_player]
      · rw [hup] at h; exact absurd h (by decide)
    · rw [handlePlayerMovement_up rng k s hrow hup]
      have hr : r ≠ 0 := fun h => hrow (by rw [hf, h])
      have hm := gridInvariant_move overlap s (Clamp s.player.x 20 780) (s.player.y - 40) hs
        (r - 1) (by omega) (by omega) (by rw [hy]; push_cast; ring)
      exact ⟨hm.1, fun _ h0 => absurd h0 hrow, fun h => by rw [hup] at h; exact absurd h (by decide)⟩
  · have hupf : k.up = false := by simpa using hup
    by_cases hd : k.down = true ∧ ⌊s.player.y / 40⌋ < 14
    · rw [handlePlayerMovement_down rng k s hupf hd.1 hd.2]
      have hm := gridInvariant_move overlap s (Clamp s.player.x 20 780) (s.player.y + 40) hs
        (r + 1) (by omega) (by rw [hf] at hd; omega) (by rw [hy]; push_cast; ring)
      exact ⟨hm.1, fun h => absurd h hup, fun _ h14 => absurd hd.2 (by omega)⟩
    · by_cases hleft : k.left = true
      · rw [handlePlayerMovement_left rng k s hupf hd hleft]
        have hm := gridInvariant_move overlap s (Clamp (s.player.x - 40) 20 780) s.player.y hs
          r hr0 hr1 hy
        exact ⟨hm.1, fun h => absurd h hup, fun _ _ => by rw [hm.2]⟩
      · have hleftf : k.left = false := by simpa using hleft
        by_cases hright : k.right = true
        · rw [handlePlayerMovement_right rng k s hupf hd hleftf hright]
          have hm := gridInvariant_move overlap s (Clamp (s.player.x + 40) 20 780) s.player.y hs
            r hr0 hr1 hy
          exact ⟨hm.1, fun h => absurd h hup, fun _ _ => by rw [hm.2]⟩
        · have hrightf : k.right = false := by simpa using hright
          rw [handlePlayerMovement_none rng k s hupf hd hleftf hrightf,
            completeTween_none overlap s htw]
          exact ⟨hs, fun h => absurd h hup, fun _ _ => rfl⟩

theorem gridInvariant_step (rng : Rng) (s : Scene) (e : Event) (hs : GridInvariant s) :
    GridInvariant (step rng s e) := by
  cases e with
  | keys k overlap => exact (step_keys_cases rng k overlap s hs).1
  | resetLevel => exact gridInvariant_resetLevel rng s hs
  | carry dx => exact hs
  | hit =>
    obtain ⟨h1, h2, h3, h4⟩ := (gridInvariant_iff s).1 hs
    obtain ⟨f1, f2, f3, f4⟩ := playerHit_frame s
    refine (gridInvariant_iff _).2 ⟨?_, ?_, ?_, ?_⟩
    · show ∃ k : Int, 0 ≤ k ∧ k ≤ 14 ∧ (playerHit s).player.y = 40 * (k : ℚ) + 20
      rw [f1]; exact h1
    · show (playerHit s).levelLayout.length = 16
      rw [f2]; exact h2
    · show (playerHit s).startY = 580
      rw [f3]; exact h3
    · show (playerHit s).tween = none
      rw [f4]; exact h4
  | play =>
    obtain ⟨_, h2, h3, h4⟩ := (gridInvariant_iff s).1 hs
    refine (gridInvariant_iff _).2 ⟨⟨14, by norm_num, le_refl _, ?_⟩, h2, h3, h4⟩
    show s.startY = _
    rw [h3]; norm_num
  | rewind => exact gridInvariant_create rng _ s

theorem gridInvariant_run (rng : Rng) (events : List Event) (s : Scene) (hs : GridInvariant s) :
    GridInvariant (run rng s events) := by
  induction events generalizing s with
  | nil => exact hs
  | cons e rest ih => exact ih (step rng s e) (gridInvariant_step rng s e hs)

/-- C10: the initial scene has the player at height 580, on row 14, with a 16-row layout.
After any sequence of events (ticks with any key edges whose move runs to completion, level
resets, log carry, death signals, the play button, a restart) the player height is
`40 * k + 20` for an integer `0 ≤ k ≤ 14` and `k` is the row index `floor(player.y / 40)`;
the row index is a valid index into `levelLayout`, so the out-of-range guard of
`checkLanding` is false.  From such a scene a tick with a down input on row 14 does not
increase the height (it leaves it unchanged unless up is pressed as well), and a tick with an
up input on row 0 leaves the height at least 20. -/
theorem player_row_invariant (rng : Rng) (events : List Event) :
    (initialScene rng).player.y = 580 ∧
    ⌊(initialScene rng).player.y / 40⌋ = 14 ∧
    (initialScene rng).levelLayout.length = 16 ∧
    (∃ k : Int, 0 ≤ k ∧ k ≤ 14 ∧
      (run rng (initialScene rng) events).player.y = 40 * (k : ℚ) + 20 ∧
      ⌊(run rng (initialScene rng) events).player.y / 40⌋ = k) ∧
    (0 ≤ ⌊(run rng (initialScene rng) events).player.y / 40⌋ ∧
      ⌊(run rng (initialScene rng) events).player.y / 40⌋ <
        ((run rng (initialScene rng) events).levelLayout.length : Int)) ∧
    ¬(⌊(run rng (initialScene rng) events).player.y / GRID_SIZE⌋ < 0 ∨
      ⌊(run rng (initialScene rng) events).player.y / GRID_SIZE⌋ ≥
        ((run rng (initialScene rng) events).levelLayout.length : Int)) ∧
    (∀ (k : Keys) (overlap : Player → Obstacle → Bool), k.down = true →
      ⌊(run rng (initialScene rng) events).player.y / 40⌋ = 14 →
      (step rng (run rng (initialScene rng) events) (Event.keys k overlap)).player.y ≤
        (run rng (initialScene rng) events).player.y ∧
      (k.up = false →
        (step rng (run rng (initialScene rng) events) (Event.keys k overlap)).player.y =
          (run rng (initialScene rng) events).player.y)) ∧
    (∀ (k : Keys) (overlap : Player → Obstacle → Bool), k.up = true →
      ⌊(run rng (initialScene rng) events).player.y / 40⌋ = 0 →
      20 ≤ (step rng (run rng (initialScene rng) events) (Event.keys k overlap)).player.y) := by
  have hinit : GridInvariant (initialScene rng) := gridInvariant_create rng none Scene.blank
  have hy0 : (initialScene rng).player.y = 580 := start_height
  have hrun := gridInvariant_run rng events (initialScene rng) hinit
  generalize run rng (initialScene rng) events = t at hrun
  have hfl := hrun.1
  have hlen := hrun.2.1
  refine ⟨hy0, ?_, hinit.2.1, ⟨_, hfl.1, hfl.2.1, hfl.2.2, rfl⟩, ⟨hfl.1, ?_⟩, ?_, ?_, ?_⟩
  · rw [hy0, Int.floor_eq_iff]; norm_num
  · rw [hlen]; have := hfl.2.1; omega
  · rw [hlen]
    unfold GRID_SIZE
    have := hfl.1
    have := hfl.2.1
    omega
  · intro k overlap _ h14
    obtain ⟨hnext, _, hsame⟩ := step_keys_cases rng k overlap t hrun
    refine ⟨?_, fun hup => hsame hup h14⟩
    have e1 := hnext.1.2.2
    have e2 := hfl.2.2
    have e3 := hnext.1.2.1
    rw [e1, e2, h14]
    have : ((⌊(step rng t (Event.keys k overlap)).player.y / 40⌋ : Int) : ℚ) ≤ 14 := by
      exact_mod_cast e3
    push_cast
    linarith
  · intro k overlap hup h0
    obtain ⟨_, htop, _⟩ := step_keys_cases rng k overlap t hrun
    rw [htop hup h0]
    norm_num

/-! ## A full climb on an all-safe level -/

theorem nextRowType_safeRng (s : Scene) : nextRowType safeRng s = RowType.safe := by
  unfold nextRowType
  split
  · show classify (9 / 10) = RowType.safe
    unfold classify
    norm_num
  · rfl

theorem generateRows_safeRng (n : Nat) (s : Scene)
    (h : ∀ t ∈ s.levelLayout, t = RowType.safe) :
    ∀ t ∈ (generateRows safeRng n s).levelLayout, t = RowType.safe := by
  induction n generalizing s with
  | zero => exact h
  | succ n ih =>
    apply ih (generateRow safeRng s)
    intro t ht
    rw [generateRow_levelLayout, List.mem_append, List.mem_singleton] at ht
    rcases ht with ht | ht
    · exact h t ht
    · rw [ht]; exact nextRowType_safeRng s

theorem checkLanding_allSafe (overlap : Player → Obstacle → Bool) (s : Scene)
    (h : ∀ t ∈ s.levelLayout, t = RowType.safe) : checkLanding overlap s = s := by
  simp only [checkLanding]
  split
  · rfl
  · split
    · rename_i hw
      exact absurd (h _ (List.getElem?_mem hw)) (by decide)
    · rfl

theorem onComplete_allSafe (overlap : Player → Obstacle → Bool) (s : Scene)
    (h : ∀ t ∈ s.levelLayout, t = RowType.safe) :
    (onComplete overlap s).isPlayerDead = s.isPlayerDead ∧
    (onComplete overlap s).gameState = s.gameState := by
  simp only [onComplete]
  split
  · rw [checkLanding_allSafe]
    · exact ⟨rfl, rfl⟩
    · exact h
  · rw [checkLanding_allSafe overlap s h]
    exact ⟨rfl, rfl⟩

theorem climbing_step (s : Scene) (r : Int) (c : Nat) (hr : 0 ≤ r) (hc : c < 9999)
    (hs : Climbing s (r + 1) c) :
    Climbing (step safeRng s (Event.keys upKey noOverlap)) r (c + 1) := by
  obtain ⟨hy, hfr, hsc, hhs, hd, hg, hsafe⟩ := hs
  have hf : ⌊s.player.y / 40⌋ = r + 1 := by rw [hy]; exact floor_grid (r + 1)
  have hstep : step safeRng s (Event.keys upKey noOverlap) =
      onComplete noOverlap
        { s with player := { x := Clamp s.player.x 20 780, y := s.player.y - 40 },
                 tween := none } := by
    show completeTween noOverlap (handlePlayerMovement safeRng upKey s) = _
    rw [handlePlayerMovement_up safeRng upKey s (by rw [hf]; omega) rfl]
    rfl
  have hy2 : s.player.y - 40 = 40 * (r : ℚ) + 20 := by rw [hy]; push_cast; ring
  have hf2 : ⌊(s.player.y - 40) / 40⌋ = r := by rw [hy2]; exact floor_grid r
  obtain ⟨f1, f2, _, _⟩ := onComplete_frame noOverlap
    { s with player := { x := Clamp s.player.x 20 780, y := s.player.y - 40 }, tween := none }
  obtain ⟨g1, g2⟩ := onComplete_allSafe noOverlap
    { s with player := { x := Clamp s.player.x 20 780, y := s.player.y - 40 }, tween := none }
    hsafe
  rw [hstep]
  refine ⟨?_, ?_, ?_, ?_, ?_, ?_, ?_⟩
  · rw [f1]; exact hy2
  · rw [onComplete_furthestRow]
    simp only [hf2, hfr]
    rw [if_pos (by omega)]
  · rw [onComplete_score]
    simp only [hf2, hfr, hsc]
    rw [if_pos (by omega), if_pos hc]
  · rw [onComplete_highScore]
    simp only [hf2, hfr, hsc, hhs]
    rw [if_pos (by omega), if_pos hc, if_pos (by omega)]
  · rw [g1]; exact hd
  · rw [g2]; exact hg
  · rw [f2]; exact hsafe

theorem climbing_run (n : Nat) (s : Scene) (r : Int) (c : Nat) (hr : 0 ≤ r)
    (hc : c + n ≤ 9999) (hs : Climbing s (r + n) c) :
    Climbing (run safeRng s (List.replicate n (Event.keys upKey noOverlap))) r (c + n) := by
  induction n generalizing s c with
  | zero => simpa [run] using hs
  | succ n ih =>
    have h1 : Climbing (step safeRng s (Event.keys upKey noOverlap)) (r + n) (c + 1) := by
      apply climbing_step s (r + n) c (by omega) (by omega)
      have e : r + ((n + 1 : Nat) : Int) = r + n + 1 := by push_cast; ring
      rw [← e]; exact hs
    have h2 := ih (step safeRng s (Event.keys upKey noOverlap)) (c + 1) (by omega) h1
    have e2 : c + 1 + n = c + (n + 1) := by omega
    rw [e2] at h2
    exact h2

theorem topScene_climbing : Climbing topScene 0 14 := by
  have h0 : Climbing (step safeRng (initialScene safeRng) Event.play) 14 0 := by
    refine ⟨?_, ?_, ?_, ?_, rfl, rfl, ?_⟩
    · show (initialScene safeRng).startY = _
      have : (initialScene safeRng).startY = 580 := start_height
      rw [this]; norm_num
    · exact startingRow_eq
    · exact initialScene_score safeRng
    · exact initialScene_highScore safeRng
    · show ∀ t ∈ (create safeRng (init none Scene.blank)).levelLayout, t = RowType.safe
      rw [create_levelLayout]
      exact generateRows_safeRng _ _ (fun t ht => absurd ht (List.not_mem_nil t))
  have h := climbing_run 14 (step safeRng (initialScene safeRng) Event.play) 0 0 (le_refl _)
    (by decide) (by simpa using h0)
  simpa [topScene, run] using h

/-- Counterexample to C3 as stated: `topScene` is reached by pressing Play and moving up
fourteen times on an all-safe level; the player is alive on row 0 with score 14.  The next
up input resets the level, and the score is still 14, not 0. -/
theorem up_on_top_row_score_not_reset :
    ⌊topScene.player.y / 40⌋ = 0 ∧ topScene.isPlayerDead = false ∧ topScene.score = 14 ∧
    handlePlayerMovement safeRng upKey topScene = resetLevel safeRng topScene ∧
    (handlePlayerMovement safeRng upKey topScene).score = 14 ∧
    (handlePlayerMovement safeRng upKey topScene).score ≠ 0 := by
  obtain ⟨hy, _, hsc, _, hd, _, _⟩ := topScene_climbing
  have hf : ⌊topScene.player.y / 40⌋ = 0 := by
    rw [hy]; exact floor_grid 0
  have ht := handlePlayerMovement_top safeRng upKey topScene hf rfl
  have hs : (handlePlayerMovement safeRng upKey topScene).score = 14 := by
    rw [ht, resetLevel_score, hsc]
  exact ⟨hf, hd, hsc, ht, hs, by rw [hs]; decide⟩

/-- Witness of the amended C3 at `topScene`. -/
theorem up_on_top_row_keeps_score_witness :
    (handlePlayerMovement safeRng upKey topScene).score = topScene.score ∧
    (handlePlayerMovement safeRng upKey topScene).highScore = topScene.highScore :=
  (up_on_top_row_keeps_score safeRng upKey topScene
    (by rw [topScene_climbing.1]; exact floor_grid 0) rfl).2

/-- Witness of C4 at `topScene`. -/
theorem up_on_top_row_resets_witness :
    (handlePlayerMovement safeRng upKey topScene).levelLayout.length = 16 ∧
    (handlePlayerMovement safeRng upKey topScene).furthestRow = 14 ∧
    (handlePlayerMovement safeRng upKey topScene).player = { x := 400, y := 580 } :=
  have h := up_on_top_row_resets safeRng upKey topScene
    (by rw [topScene_climbing.1]; exact floor_grid 0) rfl
  ⟨h.2.2.2.1, h.2.2.2.2.2.1, h.2.2.2.2.2.2.1⟩

/-! ## Examples of landing and wrap -/

/-- Witness of C5: on a water row without logs the landing check kills the player and,
the game being in state `playing`, shows the game-over panel. -/
theorem checkLanding_spec_witness :
    (checkLanding noOverlap waterScene).isPlayerDead = true ∧
    (checkLanding noOverlap waterScene).gameState = GameState.gameOver := by
  have hf : ⌊waterScene.player.y / 40⌋ = 0 := by
    show ⌊(20 : ℚ) / 40⌋ = 0
    rw [Int.floor_eq_iff]; norm_num
  have h := (checkLanding_spec noOverlap waterScene).1 (by rw [hf]) (by rw [hf]; decide)
    (by rw [hf]; rfl) (fun log hlog => absurd hlog (List.not_mem_nil log))
  refine ⟨h.2, ?_⟩
  rw [h.1]
  rfl

/-- Witness of C7: a log of width 120 moving right at `x = 900 > 860` re-enters at
`x = -60`. -/
theorem wrapGameObject_spec_witness :
    (wrapOne driftedLog).x = -60 ∧ wrapGameObject [driftedLog] = [wrapOne driftedLog] := by
  have h := wrapGameObject_spec [driftedLog] driftedLog
  have hx := h.2.2.1 (by show (0 : ℚ) < 50; norm_num)
    (by show (900 : ℚ) > 800 + 120 / 2; norm_num)
  refine ⟨?_, h.1⟩
  rw [hx]
  show -((120 : ℚ) / 2) = -60
  norm_num

/-- Witness of C6: two death signals in a running game give the same scene as one, with a
single camera shake. -/
theorem playerHit_idempotent_witness :
    playerHit (playerHit waterScene) = playerHit waterScene ∧
    (playerHit (playerHit waterScene)).shakes = 1 := by
  have h := (playerHit_idempotent waterScene).2.2.1
  exact ⟨h, by rw [h]; rfl⟩

/-! ## Left and right pressed in the same tick -/

/-- Counterexample to C9 as stated: in the initial scene (player at `(400, 580)`) a tick has
a right input, no up input and no accepted down input, but also a left input.  The move
target is `(360, 580)`, that is `x - 40`, and not `x + 40 = 440` clamped into
`[20, 780]`. -/
theorem right_input_with_left_moves_left :
    (initialScene demoRng).player = { x := 400, y := 580 } ∧
    (handlePlayerMovement demoRng ⟨false, false, true, true⟩ (initialScene demoRng)).tween =
      some (360, 580) ∧
    Clamp ((initialScene demoRng).player.x + 40) 20 780 = 440 ∧
    (handlePlayerMovement demoRng ⟨false, false, true, true⟩ (initialScene demoRng)).tween ≠
      some (Clamp ((initialScene demoRng).player.x + 40) 20 780,
            (initialScene demoRng).player.y) := by
  have hp : (initialScene demoRng).player = { x := 400, y := 580 } := by
    show ({ x := SCREEN_WIDTH / 2, y := (startingRow : ℚ) * GRID_SIZE + GRID_SIZE / 2 } : Player)
      = _
    rw [start_height, half_width]
  have ht : (handlePlayerMovement demoRng ⟨false, false, true, true⟩
      (initialScene demoRng)).tween = some (360, 580) := by
    rw [handlePlayerMovement_left demoRng _ _ rfl (fun h => absurd h.1 (by decide)) rfl, hp]
    show some (Clamp (400 - 40) 20 780, (580 : ℚ)) = _
    rw [Clamp_cases]
    norm_num
  have hc : Clamp ((initialScene demoRng).player.x + 40) 20 780 = 440 := by
    rw [hp, Clamp_cases]
    norm_num
  refine ⟨hp, ht, hc, ?_⟩
  rw [ht, hc, hp]
  norm_num

/-! ## Scoring on move completion: the cap is never exceeded -/

theorem handlePlayerMovement_score (rng : Rng) (k : Keys) (s : Scene) :
    (handlePlayerMovement rng k s).score = s.score := by
  by_cases hup : k.up = true
  · by_cases hrow : ⌊s.player.y / 40⌋ = 0
    · rw [handlePlayerMovement_top rng k s hrow hup, resetLevel_score]
    · rw [handlePlayerMovement_up rng k s hrow hup]
  · have hupf : k.up = false := by simpa using hup
    by_cases hd : k.down = true ∧ ⌊s.player.y / 40⌋ < 14
    · rw [handlePlayerMovement_down rng k s hupf hd.1 hd.2]
    · by_cases hleft : k.left = true
      · rw [handlePlayerMovement_left rng k s hupf hd hleft]
      · have hleftf : k.left = false := by simpa using hleft
        by_cases hright : k.right = true
        · rw [handlePlayerMovement_right rng k s hupf hd hleftf hright]
        · have hrightf : k.right = false := by simpa using hright
          rw [handlePlayerMovement_none rng k s hupf hd hleftf hrightf]

theorem onComplete_score_le (overlap : Player → Obstacle → Bool) (s : Scene)
    (h : s.score ≤ 9999) : (onComplete overlap s).score ≤ 9999 := by
  rw [onComplete_score]
  split <;> [split; skip] <;> omega

theorem completeTween_score_le (overlap : Player → Obstacle → Bool) (s : Scene)
    (h : s.score ≤ 9999) : (completeTween overlap s).score ≤ 9999 := by
  unfold completeTween
  split
  · exact h
  · exact onComplete_score_le overlap _ h

theorem step_score_le (rng : Rng) (s : Scene) (e : Event) (h : s.score ≤ 9999) :
    (step rng s e).score ≤ 9999 := by
  cases e with
  | keys k overlap =>
    exact completeTween_score_le overlap _ (by rw [handlePlayerMovement_score]; exact h)
  | resetLevel =>
    show (resetLevel rng s).score ≤ 9999
    rw [resetLevel_score]; exact h
  | carry dx => exact h
  | hit =>
    show (playerHit s).score ≤ 9999
    rw [playerHit_score]; exact h
  | play => exact h
  | rewind =>
    show (create rng (init (some s.highScore) s)).score ≤ 9999
    rw [create_score]
    exact Nat.zero_le _

theorem run_score_le (rng : Rng) (events : List Event) (s : Scene) (h : s.score ≤ 9999) :
    (run rng s events).score ≤ 9999 := by
  induction events generalizing s with
  | nil => exact h
  | cons e rest ih => exact ih (step rng s e) (step_score_le rng s e h)

/-- C2: when a move completes on row `r = floor(player.y / 40)`: if `r < furthestRow` then
`furthestRow` becomes `r` and, in every scene whose score is at most 9999, the score
increases by exactly 1, except that a score already at 9999 stays 9999; if
`r ≥ furthestRow` the score and `furthestRow` are unchanged.  Over any sequence of
completed moves the score never decreases, stays at most 9999 when it started at most 9999,
and `furthestRow` never increases.  The bound `score ≤ 9999` holds in every scene of every
run of the game from its initial scene, whatever the events are, so it excludes no scene
that the game can be in. -/
theorem onComplete_scoring (overlap : Player → Obstacle → Bool) (s : Scene) :
    (s.score ≤ 9999 → ⌊s.player.y / 40⌋ < s.furthestRow →
      (s.score ≠ 9999 → (onComplete overlap s).score = s.score + 1) ∧
      (s.score = 9999 → (onComplete overlap s).score = 9999)) ∧
    (⌊s.player.y / 40⌋ < s.furthestRow →
      (onComplete overlap s).furthestRow = ⌊s.player.y / 40⌋) ∧
    (s.furthestRow ≤ ⌊s.player.y / 40⌋ →
      (onComplete overlap s).score = s.score ∧
      (onComplete overlap s).furthestRow = s.furthestRow) ∧
    (∀ m1 m2 : List (Player × (Player → Obstacle → Bool)),
      (completeMoves s m1).score ≤ (completeMoves s (m1 ++ m2)).score ∧
      (completeMoves s (m1 ++ m2)).furthestRow ≤ (completeMoves s m1).furthestRow ∧
      (s.score ≤ 9999 → (completeMoves s m1).score ≤ 9999)) ∧
    (∀ (rng : Rng) (events : List Event),
      (initialScene rng).score = 0 ∧ (run rng (initialScene rng) events).score ≤ 9999) := by
  refine ⟨?_, ?_, ?_, ?_, ?_⟩
  · intro hcap h
    rw [onComplete_score, if_pos h]
    refine ⟨fun h9 => ?_, fun h9 => ?_⟩
    · rw [if_pos (by omega)]
    · rw [if_neg (by omega)]; exact h9
  · intro h
    rw [onComplete_furthestRow, if_pos h]
  · intro h
    rw [onComplete_score, onComplete_furthestRow, if_neg (by omega), if_neg (by omega)]
    exact ⟨rfl, rfl⟩
  · intro m1 m2
    rw [completeMoves_append]
    exact ⟨(completeMoves_bounds m2 _).1, (completeMoves_bounds m2 _).2.2,
      (completeMoves_bounds m1 s).2.1⟩
  · intro rng events
    have h0 := initialScene_score rng
    exact ⟨h0, run_score_le rng events _ (by rw [h0]; exact Nat.zero_le _)⟩

/-- Witness of C2: the spec example, a first move from row 14 to row 13 with score 0 gives
score 1 and `furthestRow = 13`. -/
theorem onComplete_scoring_witness :
    (onComplete (fun _ _ => false) exampleScene).score = exampleScene.score + 1 ∧
    (onComplete (fun _ _ => false) exampleScene).furthestRow = 13 := by
  have hfl : ⌊exampleScene.player.y / 40⌋ = 13 := by
    show ⌊(540 : ℚ) / 40⌋ = 13
    rw [Int.floor_eq_iff]; norm_num
  have hfr : exampleScene.furthestRow = 14 := startingRow_eq
  have hsc : exampleScene.score = 0 := initialScene_score demoRng
  have hlt : ⌊exampleScene.player.y / 40⌋ < exampleScene.furthestRow := by
    rw [hfl, hfr]; decide
  have h := onComplete_scoring (fun _ _ => false) exampleScene
  exact ⟨(h.1 (by rw [hsc]; decide) hlt).1 (by rw [hsc]; decide), by rw [h.2.1 hlt, hfl]⟩

end CrossQuest
